import Mathlib

/-!
Verification development for the surg-care repository (src/app.py, src/agent.py).

The repository is integration glue: a Flask form handler that validates a phone
number, a bootstrap (`create_room_and_call`, and a variant
`create_room_and_call_with_agent_delay`) issuing sequential HTTP POST requests
to a remote control plane, a JWT token issuer (`generate_access_token`), and an
agent entrypoint whose join-gate inspects room metadata.

Shallow embedding choices:
* Python/JSON values decoded by `json.loads` are modelled by the inductive
  `SurgCare.Json` (numbers as `Int`).
* `json.dumps` followed by `json.loads` on the receiving side is modelled as the
  identity on `Json` values: request bodies carry `Json` directly.
* The network is a function `Nat → HttpResult` giving the outcome of the i-th
  HTTP request attempted during one invocation; an outcome is either a status
  code with a body (and the result of `.json()` on that body, `Except` an
  exception message) or a raised exception.
* Each invocation also returns the list of observable events it performed, in
  order: token generation and HTTP request attempts.
* `jwt.encode` is modelled as a total pure function of the credentials and the
  clock; `int(time.time())` is the explicit parameter `now`.
* Python exceptions that the source catches are modelled by the strings the
  corresponding handlers return; an exception the source does not catch is an
  explicit `error` outcome.
-/

namespace SurgCare

/-- Values produced by Python's `json.loads` (numbers restricted to `Int`). -/
inductive Json where
  | null
  | bool (b : Bool)
  | num (n : Int)
  | str (s : String)
  | arr (xs : List Json)
  | obj (kvs : List (String × Json))

/-- Python truthiness (`if value:`) of a decoded JSON value. -/
def truthy : Json → Bool
  | .null => false
  | .bool b => b
  | .num n => n != 0
  | .str s => s != ""
  | .arr xs => !xs.isEmpty
  | .obj kvs => !kvs.isEmpty

/-- Python `dict.get(k)` on a decoded JSON object: first binding of the key. -/
def lookupKey (kvs : List (String × Json)) (k : String) : Option Json :=
  (kvs.find? (fun p => p.1 == k)).map Prod.snd

/-- Python comparison `value == 'telephone_agent'` (`agent.py` line 83): true
exactly when the value is the string `telephone_agent`; Python `==` between a
string and any non-string is `False`, and an absent key gives `None`. -/
def isTelephoneAgent : Option Json → Bool
  | some (.str s) => s == "telephone_agent"
  | _ => false

/-- Python truthiness of `metadata.get('agent_required')` (`agent.py` line 83):
an absent key yields `None`, which is falsy. -/
def requiredTruthy (kvs : List (String × Json)) : Bool :=
  match lookupKey kvs "agent_required" with
  | some v => truthy v
  | none => false

/-- Outcome of the join-gate at the top of `entrypoint` (`agent.py` 73-89):
either the agent proceeds to build the TTS/STT/LLM session and start it
(`attach`), or it returns without error (`skip`), or an uncaught Python
exception propagates (`error`). -/
inductive GateOutcome where
  | attach
  | skip
  | error (msg : String)
deriving DecidableEq

/-- Model of `str(AttributeError)` raised by `metadata.get(...)` when
`json.loads` produced a non-dict value; the exact CPython text is not
reproduced, only which type triggered it. -/
def attributeErrorMsg (j : Json) : String :=
  match j with
  | .null => "AttributeError: NoneType has no attribute get"
  | .bool _ => "AttributeError: bool has no attribute get"
  | .num _ => "AttributeError: int has no attribute get"
  | .str _ => "AttributeError: str has no attribute get"
  | .arr _ => "AttributeError: list has no attribute get"
  | .obj _ => "AttributeError: dict has no attribute get"

/-- The join-gate of `entrypoint` (`agent.py` 77-89).  Its input is the result
of `json.loads(ctx.room.metadata or "\x7b\x7d")`: `Except.error ()` stands for a
`json.JSONDecodeError`, and absent/empty room metadata arrives as
`Except.ok (Json.obj [])` because the source substitutes the literal text of an
empty object before parsing.  On a decode error the handler at line 88 prints
a warning and falls through to the session setup, so the agent attaches.  A
successfully parsed non-dict value makes `metadata.get` raise an uncaught
`AttributeError`. -/
def entrypointGate (parsed : Except Unit Json) : GateOutcome :=
  match parsed with
  | .error _ => .attach
  | .ok (.obj kvs) =>
      if requiredTruthy kvs && isTelephoneAgent (lookupKey kvs "agent_name") then
        .attach
      else
        .skip
  | .ok j => .error (attributeErrorMsg j)

/-- The four configuration values read at process start in `app.py` 19-22;
`none` stands for an unset variable (and the theorems treat an empty string,
also falsy in Python, through `present`). -/
structure Env where
  livekit_url : Option String
  livekit_api_key : Option String
  livekit_api_secret : Option String
  sip_trunk_id : Option String

/-- Python truthiness of an environment value: unset (`None`) and the empty
string are falsy. -/
def present : Option String → Bool
  | none => false
  | some s => s != ""

/-- `os.getenv(v)` for the four names checked in `app.py` 87. -/
def envGet (env : Env) : String → Option String := fun n =>
  if n = "LIVEKIT_URL" then env.livekit_url
  else if n = "LIVEKIT_API_KEY" then env.livekit_api_key
  else if n = "LIVEKIT_API_SECRET" then env.livekit_api_secret
  else if n = "SIP_TRUNK_ID" then env.sip_trunk_id
  else none

def envVarNames : List String :=
  ["LIVEKIT_URL", "LIVEKIT_API_KEY", "LIVEKIT_API_SECRET", "SIP_TRUNK_ID"]

/-- The list comprehension of `app.py` 87: names of falsy configuration
values, in the fixed order. -/
def missingVars (env : Env) : List String :=
  envVarNames.filter (fun n => !present (envGet env n))

/-- The guard `all([LIVEKIT_URL, LIVEKIT_API_KEY, LIVEKIT_API_SECRET,
SIP_TRUNK_ID])` of `app.py` 86. -/
def allPresent (env : Env) : Bool :=
  present env.livekit_url && present env.livekit_api_key &&
    present env.livekit_api_secret && present env.sip_trunk_id

/-- Python `", ".join(...)`. -/
def joinComma : List String → String
  | [] => ""
  | [x] => x
  | x :: y :: ys => x ++ ", " ++ joinComma (y :: ys)

/-- `jwt.encode(payload, secret, algorithm="HS256")` modelled as a total pure
function of the credentials and the clock (the payload of `app.py` 33-74 is
determined by these); with string credentials the real call does not raise. -/
def jwtEncode (apiKey secret : String) (now : Nat) : String :=
  "jwt." ++ apiKey ++ "." ++ secret ++ "." ++ toString now

/-- `generate_access_token` (`app.py` 24-80): raises `ValueError` (the
`Except.error` case) exactly when the API key or secret is falsy, otherwise
returns the encoded token. -/
def generate_access_token (env : Env) (now : Nat) : Except String String :=
  if !(present env.livekit_api_key && present env.livekit_api_secret) then
    .error "Missing LIVEKIT_API_KEY or LIVEKIT_API_SECRET"
  else
    .ok (jwtEncode (env.livekit_api_key.getD "") (env.livekit_api_secret.getD "") now)

/-- Character-list comparison underlying `pyStartsWith`. -/
def charsStartWith : List Char → List Char → Bool
  | [], _ => true
  | _ :: _, [] => false
  | p :: ps, c :: cs => p == c && charsStartWith ps cs

/-- Python `s.startswith(pre)`: the characters of `pre` open the string. -/
def pyStartsWith (s pre : String) : Bool := charsStartWith pre.data s.data

/-- URL normalisation of `app.py` 102-110: scheme rewrite guarded by the
scheme the URL starts with, then strip trailing slashes. -/
def urlNormalize (u : String) : String :=
  let u2 :=
    if pyStartsWith u "wss://" then u.replace "wss://" "https://"
    else if pyStartsWith u "ws://" then u.replace "ws://" "http://"
    else u
  u2.dropRightWhile (fun c => c == '/')

/-- Outcome of one HTTP POST: a response with status, body text, and the
result of `.json()` on the body (`Except.error` when `.json()` raises), or a
raised exception with its message. -/
inductive HttpResult where
  | ok (status : Nat) (body : String) (jsonBody : Except String Json)
  | exn (msg : String)

/-- The three remote procedures the bootstrap functions post to. -/
inductive ReqKind where
  | createRoom
  | createSIP
  | updateMetadata
deriving DecidableEq

/-- Observable actions of one bootstrap invocation, in order: token
generation, then each HTTP request attempt with its URL, bearer token and
JSON body. -/
inductive Event where
  | genToken
  | req (kind : ReqKind) (url : String) (token : String) (body : Json)

/-- The room metadata object serialised into `room_data["metadata"]` at
`app.py` 126-132. -/
def roomMetadata (phone : String) (ts : Nat) : Json :=
  .obj [("agent_required", .bool true),
        ("agent_name", .str "telephone_agent"),
        ("call_type", .str "sip_outbound"),
        ("phone_number", .str phone),
        ("timestamp", .num ts)]

/-- `room_data` of `app.py` 122-133 (the metadata field carries the `Json`
value directly, standing for its serialisation). -/
def roomRequestBody (roomName phone : String) (ts : Nat) : Json :=
  .obj [("name", .str roomName),
        ("empty_timeout", .num 300),
        ("max_participants", .num 10),
        ("metadata", roomMetadata phone ts)]

/-- `participant_metadata` of `app.py` 155-159. -/
def participantMetadata (phone : String) (ts : Nat) : Json :=
  .obj [("phone_number", .str phone),
        ("call_type", .str "outbound"),
        ("timestamp", .num ts)]

/-- `sip_data` of `app.py` 149-161. -/
def sipRequestBody (trunk phone roomName : String) (ts : Nat) : Json :=
  .obj [("sip_trunk_id", .str trunk),
        ("sip_call_to", .str phone),
        ("room_name", .str roomName),
        ("participant_identity", .str ("phone-" ++ ((phone.replace "+" "").replace "-" ""))),
        ("participant_name", .str ("Phone Call to " ++ phone)),
        ("participant_metadata", participantMetadata phone ts),
        ("play_dialtone", .bool true)]

/-- `room_data` of the delayed variant (`app.py` 278-282): no metadata. -/
def delayRoomRequestBody (roomName : String) : Json :=
  .obj [("name", .str roomName),
        ("empty_timeout", .num 300),
        ("max_participants", .num 10)]

/-- `update_data` of `app.py` 318-325. -/
def updateMetadataBody (roomName : String) : Json :=
  .obj [("room", .str roomName),
        ("metadata", .obj [("agent_required", .bool true),
                           ("agent_name", .str "telephone_agent"),
                           ("call_established", .bool true)])]

mutual
/-- Python `repr()` of a decoded JSON value (string escaping inside `repr`
is not modelled). -/
def pyRepr : Json → String
  | .null => "None"
  | .bool true => "True"
  | .bool false => "False"
  | .num n => toString n
  | .str s => "\x27" ++ s ++ "\x27"
  | .arr xs => "[" ++ pyReprSeq xs ++ "]"
  | .obj kvs => "\x7b" ++ pyReprPairs kvs ++ "\x7d"

def pyReprSeq : List Json → String
  | [] => ""
  | [x] => pyRepr x
  | x :: xs => pyRepr x ++ ", " ++ pyReprSeq xs

def pyReprPairs : List (String × Json) → String
  | [] => ""
  | [(k, v)] => "\x27" ++ k ++ "\x27: " ++ pyRepr v
  | (k, v) :: xs => "\x27" ++ k ++ "\x27: " ++ pyRepr v ++ ", " ++ pyReprPairs xs
end

/-- Python `str()` of a decoded JSON value, as applied by f-string
interpolation. -/
def pyStr : Json → String
  | .str s => s
  | j => pyRepr j

/-- `result.get("participant_id", "N/A")` rendered into the success message
(`app.py` 172). -/
def pidDisplay (kvs : List (String × Json)) : String :=
  match lookupKey kvs "participant_id" with
  | some v => pyStr v
  | none => "N/A"

/-- `create_room_and_call` (`app.py` 82-177).  `now` is `int(time.time())`;
`net i` is the outcome of the i-th HTTP request attempted.  Branches where
the source raises inside the `try` block return the string produced by the
outer `except Exception` handler (line 176-177).  The result pairs the
returned message with the ordered event trace. -/
def create_room_and_call (phone : String) (env : Env) (now : Nat)
    (net : Nat → HttpResult) : String × List Event :=
  if !allPresent env then
    ("Error: Missing environment variables: " ++ joinComma (missingVars env), [])
  else
    let roomName := "surgical-call-" ++ toString now
    match generate_access_token env now with
    | .error e => ("Token generation error: " ++ e, [.genToken])
    | .ok token =>
      let apiUrl := urlNormalize (env.livekit_url.getD "")
      let ev1 : List Event :=
        [.genToken,
         .req .createRoom (apiUrl ++ "/twirp/livekit.RoomService/CreateRoom") token
           (roomRequestBody roomName phone now)]
      match net 0 with
      | .exn e => ("Exception occurred: " ++ e, ev1)
      | .ok st body _ =>
        if st != 200 then
          ("Error creating room: " ++ toString st ++ " - " ++ body, ev1)
        else
          let ev2 := ev1 ++
            [.req .createSIP (apiUrl ++ "/twirp/livekit.SIP/CreateSIPParticipant") token
              (sipRequestBody (env.sip_trunk_id.getD "") phone roomName now)]
          match net 1 with
          | .exn e => ("Exception occurred: " ++ e, ev2)
          | .ok st2 body2 jb =>
            if st2 == 200 then
              match jb with
              | .error e => ("Exception occurred: " ++ e, ev2)
              | .ok (.obj kvs) =>
                ("✅ Call initiated successfully!\nRoom: " ++ roomName ++
                   "\nParticipant ID: " ++ pidDisplay kvs ++
                   "\n🤖 Agent should join the call shortly",
                 ev2)
              | .ok j => ("Exception occurred: " ++ attributeErrorMsg j, ev2)
            else
              ("Error creating SIP participant: " ++ toString st2 ++ " - " ++ body2, ev2)

/-- `create_room_and_call_with_agent_delay` (`app.py` 250-334).  The token
`ValueError` is caught only by the outer `except Exception` here; the
metadata-update response status is printed and ignored, but an exception
raised by the update request itself reaches the outer handler.  The
`asyncio.sleep(3)` has no observable effect in this model. -/
def create_room_and_call_with_agent_delay (phone : String) (env : Env) (now : Nat)
    (net : Nat → HttpResult) : String × List Event :=
  if !allPresent env then
    ("Error: Missing environment variables: " ++ joinComma (missingVars env), [])
  else
    let roomName := "surgical-call-" ++ toString now
    match generate_access_token env now with
    | .error e => ("Exception occurred: " ++ e, [.genToken])
    | .ok token =>
      let apiUrl := urlNormalize (env.livekit_url.getD "")
      let ev1 : List Event :=
        [.genToken,
         .req .createRoom (apiUrl ++ "/twirp/livekit.RoomService/CreateRoom") token
           (delayRoomRequestBody roomName)]
      match net 0 with
      | .exn e => ("Exception occurred: " ++ e, ev1)
      | .ok st body _ =>
        if st != 200 then
          ("Error creating room: " ++ toString st ++ " - " ++ body, ev1)
        else
          let ev2 := ev1 ++
            [.req .createSIP (apiUrl ++ "/twirp/livekit.SIP/CreateSIPParticipant") token
              (sipRequestBody (env.sip_trunk_id.getD "") phone roomName now)]
          match net 1 with
          | .exn e => ("Exception occurred: " ++ e, ev2)
          | .ok st2 body2 jb =>
            if st2 != 200 then
              ("Error creating SIP participant: " ++ toString st2 ++ " - " ++ body2, ev2)
            else
              match jb with
              | .error e => ("Exception occurred: " ++ e, ev2)
              | .ok (.obj _) =>
                let ev3 := ev2 ++
                  [.req .updateMetadata
                    (apiUrl ++ "/twirp/livekit.RoomService/UpdateRoomMetadata") token
                    (updateMetadataBody roomName)]
                match net 2 with
                | .exn e => ("Exception occurred: " ++ e, ev3)
                | .ok _ _ _ =>
                  ("✅ Call initiated to " ++ phone ++ "!\nRoom: " ++ roomName ++
                     "\n🤖 Attempting to add agent...", ev3)
              | .ok j => ("Exception occurred: " ++ attributeErrorMsg j, ev2)

inductive HttpMethod where
  | get
  | post
deriving DecidableEq

/-- The validation message of `app.py` 344. -/
def validationError : String :=
  "❌ Error: Phone number must be in E.164 format (e.g., +1XXXXXXXXXX)."

/-- The `index` route handler (`app.py` 336-348): on GET the message is
`None`; on POST a number without a leading `+` yields the validation message
and nothing else runs, otherwise `create_room_and_call` is awaited. -/
def index (method : HttpMethod) (phone : String) (env : Env) (now : Nat)
    (net : Nat → HttpResult) : Option String × List Event :=
  match method with
  | .get => (none, [])
  | .post =>
    if !(pyStartsWith phone "+") then
      (some validationError, [])
    else
      let r := create_room_and_call phone env now net
      (some r.1, r.2)

/-- Substring containment, used to state that a returned message mentions a
given piece of text. -/
def strContains (s sub : String) : Prop := ∃ a b, s = a ++ sub ++ b

/-- The network-call kinds attempted during a trace, in order. -/
def reqKinds : List Event → List ReqKind
  | [] => []
  | .genToken :: es => reqKinds es
  | .req k _ _ _ :: es => k :: reqKinds es

/-- The join condition as the spec words it (for comparison with
`entrypointGate`, which uses Python truthiness and proceeds on a decode
error): the metadata parses as a JSON object containing the literal
`agent_required: true` and `agent_name` equal to `telephone_agent`. -/
def specGateCond (parsed : Except Unit Json) : Bool :=
  match parsed with
  | .ok (.obj kvs) =>
      (match lookupKey kvs "agent_required" with
       | some (.bool true) => true
       | _ => false) && isTelephoneAgent (lookupKey kvs "agent_name")
  | _ => false

/-- Every message `create_room_and_call` can return starts with one of six
fixed descriptive markers (missing configuration, token failure, the two
per-request HTTP failures, success, or a caught exception). -/
def descriptiveMessage (s : String) : Prop :=
  (∃ r, s = "Error: Missing environment variables: " ++ r) ∨
  (∃ r, s = "Token generation error: " ++ r) ∨
  (∃ r, s = "Error creating room: " ++ r) ∨
  (∃ r, s = "Error creating SIP participant: " ++ r) ∨
  (∃ r, s = "✅ Call initiated successfully!\nRoom: " ++ r) ∨
  (∃ r, s = "Exception occurred: " ++ r)

theorem allPresent_split (env : Env) (h : allPresent env = true) :
    present env.livekit_url = true ∧ present env.livekit_api_key = true ∧
      present env.livekit_api_secret = true ∧ present env.sip_trunk_id = true := by
  simpa [allPresent, and_assoc] using h

theorem gen_token_ok_of_allPresent (env : Env) (now : Nat) (h : allPresent env = true) :
    generate_access_token env now =
      .ok (jwtEncode (env.livekit_api_key.getD "") (env.livekit_api_secret.getD "") now) := by
  obtain ⟨-, h2, h3, -⟩ := allPresent_split env h
  simp [generate_access_token, h2, h3]

theorem joinComma_contains (l : List String) (x : String) (hx : x ∈ l) :
    strContains (joinComma l) x := by
  induction l with
  | nil => cases hx
  | cons y ys ih =>
    cases ys with
    | nil =>
      rw [List.mem_singleton] at hx
      subst hx
      exact ⟨"", "", by rw [joinComma, String.append_empty, String.empty_append]⟩
    | cons z zs =>
      rcases List.mem_cons.mp hx with rfl | hx2
      · refine ⟨"", ", " ++ joinComma (z :: zs), ?_⟩
        rw [joinComma, String.empty_append, String.append_assoc]
      · obtain ⟨a, b, hab⟩ := ih hx2
        refine ⟨y ++ ", " ++ a, b, ?_⟩
        rw [joinComma, hab]
        simp [String.append_assoc]

/-- Whether a decoded JSON value is an object (a Python dict). -/
def isObj : Json → Bool
  | .obj _ => true
  | _ => false

/-- Whether the trace opens with the token-generation event whenever it is
nonempty; together with the request-order facts this expresses that the
token is generated before any network call. -/
def tokenLeadsTrace : List Event → Bool
  | [] => true
  | .genToken :: _ => true
  | .req _ _ _ _ :: _ => false

/-- A fully configured environment used by the concrete witnesses. -/
def demoEnv : Env :=
  ⟨some "wss://demo.livekit.cloud", some "APIKEY", some "APISECRET", some "TRUNK_1"⟩

/-- A network on which every request succeeds with status 200. -/
def successNet : Nat → HttpResult := fun n =>
  if n == 0 then HttpResult.ok 200 "" (Except.ok (Json.obj []))
  else HttpResult.ok 200 "" (Except.ok (Json.obj [("participant_id", Json.str "PA_x")]))

/-- A network on which both calls succeed and the metadata update returns
status 500. -/
def updateFailNet : Nat → HttpResult := fun n =>
  if n == 0 || n == 1 then
    HttpResult.ok 200 "" (Except.ok (Json.obj [("participant_id", Json.str "PA_x")]))
  else HttpResult.ok 500 "update failed" (Except.error "no json body")

/-- A network on which both calls succeed and the metadata-update request
itself raises. -/
def updateExnNet : Nat → HttpResult := fun n =>
  if n == 0 || n == 1 then
    HttpResult.ok 200 "" (Except.ok (Json.obj [("participant_id", Json.str "PA_x")]))
  else HttpResult.exn "Connection reset by peer"

/-- C1 counterexample: when the room metadata fails to parse as JSON the
entrypoint proceeds to attach the agent (the decode-error handler at
`agent.py` 88-89 falls through to the session setup), while the claim
requires that a parse failure results in no attachment. -/
theorem C1_counterexample :
    entrypointGate (Except.error ()) = GateOutcome.attach ∧
      specGateCond (Except.error ()) = false :=
  ⟨rfl, rfl⟩

/-- C1 (amended): the join-gate attaches exactly when the room metadata
either fails to parse as JSON (the decode-error handler proceeds with the
session setup anyway) or parses as a JSON object whose `agent_required`
field is truthy and whose `agent_name` field equals `telephone_agent`; a
parsed object failing that check makes the entrypoint return without error,
and a successfully parsed non-object value raises an uncaught
`AttributeError`. -/
theorem C1_joinGate_attach_iff (p : Except Unit Json) :
    (entrypointGate p = GateOutcome.attach ↔
      (∃ e, p = Except.error e) ∨
      ∃ kvs, p = Except.ok (Json.obj kvs) ∧
        (requiredTruthy kvs && isTelephoneAgent (lookupKey kvs "agent_name")) = true) ∧
    (∀ kvs, p = Except.ok (Json.obj kvs) →
      (requiredTruthy kvs && isTelephoneAgent (lookupKey kvs "agent_name")) = false →
      entrypointGate p = GateOutcome.skip) ∧
    (∀ j, p = Except.ok j → isObj j = false →
      entrypointGate p = GateOutcome.error (attributeErrorMsg j)) := by
  refine ⟨?_, ?_, ?_⟩
  · cases p with
    | error e => simp [entrypointGate]
    | ok j =>
      cases j with
      | obj kvs =>
        by_cases hc : (requiredTruthy kvs && isTelephoneAgent (lookupKey kvs "agent_name")) = true
        · simp only [entrypointGate, hc, if_true]
          simpa using hc
        · simp only [entrypointGate, hc, if_false, Bool.false_eq_true]
          constructor
          · intro hcontra
            exact absurd hcontra (by simp)
          · rintro (⟨e, he⟩ | ⟨kvs2, hk, hb⟩)
            · exact absurd he (by simp)
            · injection hk with hk1
              injection hk1 with hk2
              exact absurd (hk2 ▸ hb) hc
      | null => simp [entrypointGate]
      | bool b => simp [entrypointGate]
      | num n => simp [entrypointGate]
      | str s => simp [entrypointGate]
      | arr xs => simp [entrypointGate]
  · rintro kvs rfl hc
    simp [entrypointGate, hc]
  · rintro j rfl hj
    cases j <;> simp_all [entrypointGate, isObj]

/-- Witness for the C1 characterization: a concrete metadata object carrying
both required fields makes the gate attach. -/
theorem C1_witness :
    entrypointGate (Except.ok (Json.obj
      [("agent_required", Json.bool true), ("agent_name", Json.str "telephone_agent")])) =
      GateOutcome.attach :=
  (C1_joinGate_attach_iff _).1.mpr (Or.inr ⟨_, rfl, by decide⟩)

/-- C2: a POST whose phone number does not start with `+` makes the form
handler return the literal validation message and produce no event at all —
no token generation and no HTTP request, so `create_room_and_call` is never
entered. -/
theorem C2_validation_short_circuit (phone : String) (env : Env) (now : Nat)
    (net : Nat → HttpResult) (h : pyStartsWith phone "+" = false) :
    index HttpMethod.post phone env now net = (some validationError, []) := by
  simp [index, h]

/-- Witness for C2 at the spec example number 5551234567. -/
theorem C2_witness :
    index HttpMethod.post "5551234567"
        ⟨some "wss://demo.livekit.cloud", some "key", some "secret", some "trunk"⟩
        1700000000 (fun _ => HttpResult.exn "network down") =
      (some validationError, []) :=
  C2_validation_short_circuit _ _ _ _ (by decide)

/-- C9: the metadata that `create_room_and_call` attaches to the room it
creates passes the entrypoint join-gate for every phone number and
timestamp: parsing it back and applying the two-field check yields
attachment. -/
theorem C9_roomMetadata_attaches (phone : String) (ts : Nat) :
    entrypointGate (Except.ok (roomMetadata phone ts)) = GateOutcome.attach := rfl

/-- C10: when any of the four configuration values is falsy,
`create_room_and_call` returns the missing-variables report (naming each
missing variable) and performs no event: no token generation and no network
request. -/
theorem C10_missing_env (phone : String) (env : Env) (now : Nat)
    (net : Nat → HttpResult) (h : allPresent env = false) :
    create_room_and_call phone env now net =
      ("Error: Missing environment variables: " ++ joinComma (missingVars env), []) ∧
    ∀ n, n ∈ missingVars env →
      strContains (create_room_and_call phone env now net).1 n := by
  have hmain : create_room_and_call phone env now net =
      ("Error: Missing environment variables: " ++ joinComma (missingVars env), []) := by
    simp [create_room_and_call, h]
  refine ⟨hmain, fun n hn => ?_⟩
  obtain ⟨a, b, hab⟩ := joinComma_contains _ n hn
  refine ⟨"Error: Missing environment variables: " ++ a, b, ?_⟩
  rw [hmain]
  simp [hab, String.append_assoc]

/-- Witness for C10: with the base URL and trunk id unset, the returned
message names exactly those two variables and the trace is empty. -/
theorem C10_witness :
    create_room_and_call "+15551234567" ⟨none, some "key", some "secret", none⟩
        1700000000 (fun _ => HttpResult.exn "boom") =
      ("Error: Missing environment variables: LIVEKIT_URL, SIP_TRUNK_ID", []) := by
  have h := (C10_missing_env "+15551234567" ⟨none, some "key", some "secret", none⟩
    1700000000 (fun _ => HttpResult.exn "boom") rfl).1
  rw [h]
  rfl

/-- C3: if the create-session request returns a non-success status, the
returned message is the room-creation error containing the literal status
code and the response body, and no call-placement request is attempted. -/
theorem C3_room_failure_stops_flow (phone : String) (env : Env) (now : Nat)
    (net : Nat → HttpResult) (st : Nat) (body : String) (jb : Except String Json)
    (henv : allPresent env = true) (hnet : net 0 = HttpResult.ok st body jb)
    (hst : st ≠ 200) :
    (create_room_and_call phone env now net).1 =
        "Error creating room: " ++ toString st ++ " - " ++ body ∧
    strContains (create_room_and_call phone env now net).1 (toString st) ∧
    strContains (create_room_and_call phone env now net).1 body ∧
    reqKinds (create_room_and_call phone env now net).2 = [ReqKind.createRoom] := by
  have hg := gen_token_ok_of_allPresent env now henv
  have hbeq : (st != 200) = true := by simpa using hst
  refine ⟨?_, ?_, ?_, ?_⟩
  · simp [create_room_and_call, henv, hg, hnet, hbeq]
  · refine ⟨"Error creating room: ", " - " ++ body, ?_⟩
    simp [create_room_and_call, henv, hg, hnet, hbeq, String.append_assoc]
  · refine ⟨"Error creating room: " ++ toString st ++ " - ", "", ?_⟩
    simp [create_room_and_call, henv, hg, hnet, hbeq, String.append_assoc,
      String.append_empty]
  · simp [create_room_and_call, henv, hg, hnet, hbeq, reqKinds]

/-- Witness for C3: a 403 on room creation yields the formatted error and no
second request. -/
theorem C3_witness :
    (create_room_and_call "+15551234567" demoEnv 1700000000
        (fun _ => HttpResult.ok 403 "forbidden" (Except.error "no json"))).1 =
      "Error creating room: 403 - forbidden" := by
  have h := (C3_room_failure_stops_flow "+15551234567" demoEnv 1700000000
      (fun _ => HttpResult.ok 403 "forbidden" (Except.error "no json")) 403 "forbidden"
      (Except.error "no json") rfl rfl (by decide)).1
  rw [h]
  rfl

/-- C5: with full configuration and both requests succeeding, calling
+15551234567 returns a message containing "Call initiated" and the generated
session name surgical-call-<timestamp>, where the timestamp is the clock at
invocation. -/
theorem C5_success_message (env : Env) (now : Nat) (net : Nat → HttpResult)
    (b0 b1 : String) (j0 : Except String Json) (kvs : List (String × Json))
    (henv : allPresent env = true)
    (h0 : net 0 = HttpResult.ok 200 b0 j0)
    (h1 : net 1 = HttpResult.ok 200 b1 (Except.ok (Json.obj kvs))) :
    strContains (create_room_and_call "+15551234567" env now net).1 "Call initiated" ∧
    strContains (create_room_and_call "+15551234567" env now net).1
      ("surgical-call-" ++ toString now) := by
  have hg := gen_token_ok_of_allPresent env now henv
  have hmain : (create_room_and_call "+15551234567" env now net).1 =
      "✅ Call initiated successfully!\nRoom: " ++ ("surgical-call-" ++ toString now) ++
        "\nParticipant ID: " ++ pidDisplay kvs ++
        "\n🤖 Agent should join the call shortly" := by
    simp [create_room_and_call, henv, hg, h0, h1]
  constructor
  · refine ⟨"✅ ", " successfully!\nRoom: " ++ (("surgical-call-" ++ toString now) ++
      ("\nParticipant ID: " ++ (pidDisplay kvs ++
        "\n🤖 Agent should join the call shortly"))), ?_⟩
    rw [hmain]
    simp only [String.append_assoc]
    conv_rhs => rw [← String.append_assoc, ← String.append_assoc]
    rfl
  · refine ⟨"✅ Call initiated successfully!\nRoom: ",
      "\nParticipant ID: " ++ pidDisplay kvs ++
      "\n🤖 Agent should join the call shortly", ?_⟩
    rw [hmain]
    simp [String.append_assoc]

/-- Witness for C5 on a concrete all-success network. -/
theorem C5_witness :
    strContains (create_room_and_call "+15551234567" demoEnv 1700000000 successNet).1
        "Call initiated" ∧
    strContains (create_room_and_call "+15551234567" demoEnv 1700000000 successNet).1
        ("surgical-call-" ++ toString 1700000000) :=
  C5_success_message demoEnv 1700000000 successNet "" ""
    (Except.ok (Json.obj [])) [("participant_id", Json.str "PA_x")] rfl rfl rfl

/-- C7: the token issuer fails exactly when the API key or API secret is
falsy, and missing configuration in the bootstrap functions is reported as a
returned string (the missing-variables report, with nothing performed)
rather than raised. -/
theorem C7_token_raises_iff_missing_creds (env : Env) (now : Nat) :
    ((∃ e, generate_access_token env now = Except.error e) ↔
      (present env.livekit_api_key = false ∨ present env.livekit_api_secret = false)) ∧
    (∀ phone net, allPresent env = false →
      create_room_and_call phone env now net =
        ("Error: Missing environment variables: " ++ joinComma (missingVars env), []) ∧
      create_room_and_call_with_agent_delay phone env now net =
        ("Error: Missing environment variables: " ++ joinComma (missingVars env), [])) := by
  constructor
  · constructor
    · rintro ⟨e, he⟩
      by_cases hk : present env.livekit_api_key = true
      · by_cases hs : present env.livekit_api_secret = true
        · simp [generate_access_token, hk, hs] at he
        · exact Or.inr (by simpa using hs)
      · exact Or.inl (by simpa using hk)
    · rintro (hk | hs)
      · exact ⟨"Missing LIVEKIT_API_KEY or LIVEKIT_API_SECRET",
          by simp [generate_access_token, hk]⟩
      · exact ⟨"Missing LIVEKIT_API_KEY or LIVEKIT_API_SECRET",
          by simp [generate_access_token, hs]⟩
  · intro phone net h
    exact ⟨by simp [create_room_and_call, h],
      by simp [create_room_and_call_with_agent_delay, h]⟩

/-- Witness for C7: a missing secret makes the token issuer raise. -/
theorem C7_witness :
    ∃ e, generate_access_token ⟨some "url", some "key", none, some "trunk"⟩ 5 =
      Except.error e :=
  (C7_token_raises_iff_missing_creds ⟨some "url", some "key", none, some "trunk"⟩ 5).1.mpr
    (Or.inr rfl)

theorem create_trace_shape (phone : String) (env : Env) (now : Nat)
    (net : Nat → HttpResult) :
    tokenLeadsTrace (create_room_and_call phone env now net).2 = true ∧
    ∃ r, reqKinds (create_room_and_call phone env now net).2 ++ r =
      [ReqKind.createRoom, ReqKind.createSIP] := by
  by_cases henv : allPresent env = true
  · have hg := gen_token_ok_of_allPresent env now henv
    cases hn0 : net 0 with
    | exn e =>
      exact ⟨by simp [create_room_and_call, henv, hg, hn0, tokenLeadsTrace],
        ⟨[ReqKind.createSIP],
          by simp [create_room_and_call, henv, hg, hn0, reqKinds]⟩⟩
    | ok st b jb =>
      by_cases hst : (st != 200) = true
      · exact ⟨by simp [create_room_and_call, henv, hg, hn0, hst, tokenLeadsTrace],
          ⟨[ReqKind.createSIP],
            by simp [create_room_and_call, henv, hg, hn0, hst, reqKinds]⟩⟩
      · have hst2 : (st != 200) = false := by simpa using hst
        cases hn1 : net 1 with
        | exn e =>
          exact ⟨by simp [create_room_and_call, henv, hg, hn0, hst2, hn1, tokenLeadsTrace],
            ⟨[], by simp [create_room_and_call, henv, hg, hn0, hst2, hn1, reqKinds]⟩⟩
        | ok st2 b2 jb2 =>
          by_cases hs2 : (st2 == 200) = true
          · cases jb2 with
            | error e =>
              exact ⟨by simp [create_room_and_call, henv, hg, hn0, hst2, hn1, hs2,
                  tokenLeadsTrace],
                ⟨[], by simp [create_room_and_call, henv, hg, hn0, hst2, hn1, hs2,
                  reqKinds]⟩⟩
            | ok j =>
              cases j <;>
                exact ⟨by simp [create_room_and_call, henv, hg, hn0, hst2, hn1, hs2,
                    tokenLeadsTrace],
                  ⟨[], by simp [create_room_and_call, henv, hg, hn0, hst2, hn1, hs2,
                    reqKinds]⟩⟩
          · have hs2f : (st2 == 200) = false := by simpa using hs2
            exact ⟨by simp [create_room_and_call, henv, hg, hn0, hst2, hn1, hs2f,
                tokenLeadsTrace],
              ⟨[], by simp [create_room_and_call, henv, hg, hn0, hst2, hn1, hs2f,
                reqKinds]⟩⟩
  · have h : allPresent env = false := by simpa using henv
    exact ⟨by simp [create_room_and_call, h, tokenLeadsTrace],
      ⟨[ReqKind.createRoom, ReqKind.createSIP],
        by simp [create_room_and_call, h, reqKinds]⟩⟩

theorem delay_trace_shape (phone : String) (env : Env) (now : Nat)
    (net : Nat → HttpResult) :
    tokenLeadsTrace (create_room_and_call_with_agent_delay phone env now net).2 = true ∧
    ∃ r, reqKinds (create_room_and_call_with_agent_delay phone env now net).2 ++ r =
      [ReqKind.createRoom, ReqKind.createSIP, ReqKind.updateMetadata] := by
  by_cases henv : allPresent env = true
  · have hg := gen_token_ok_of_allPresent env now henv
    cases hn0 : net 0 with
    | exn e =>
      exact ⟨by simp [create_room_and_call_with_agent_delay, henv, hg, hn0, tokenLeadsTrace],
        ⟨[ReqKind.createSIP, ReqKind.updateMetadata],
          by simp [create_room_and_call_with_agent_delay, henv, hg, hn0, reqKinds]⟩⟩
    | ok st b jb =>
      by_cases hst : (st != 200) = true
      · exact ⟨by simp [create_room_and_call_with_agent_delay, henv, hg, hn0, hst,
            tokenLeadsTrace],
          ⟨[ReqKind.createSIP, ReqKind.updateMetadata],
            by simp [create_room_and_call_with_agent_delay, henv, hg, hn0, hst, reqKinds]⟩⟩
      · have hst2 : (st != 200) = false := by simpa using hst
        cases hn1 : net 1 with
        | exn e =>
          exact ⟨by simp [create_room_and_call_with_agent_delay, henv, hg, hn0, hst2, hn1,
              tokenLeadsTrace],
            ⟨[ReqKind.updateMetadata],
              by simp [create_room_and_call_with_agent_delay, henv, hg, hn0, hst2, hn1,
                reqKinds]⟩⟩
        | ok st2 b2 jb2 =>
          by_cases hs2 : (st2 != 200) = true
          · exact ⟨by simp [create_room_and_call_with_agent_delay, henv, hg, hn0, hst2, hn1,
                hs2, tokenLeadsTrace],
              ⟨[ReqKind.updateMetadata],
                by simp [create_room_and_call_with_agent_delay, henv, hg, hn0, hst2, hn1,
                  hs2, reqKinds]⟩⟩
          · have hs2f : (st2 != 200) = false := by simpa using hs2
            cases jb2 with
            | error e =>
              exact ⟨by simp [create_room_and_call_with_agent_delay, henv, hg, hn0, hst2,
                  hn1, hs2f, tokenLeadsTrace],
                ⟨[ReqKind.updateMetadata],
                  by simp [create_room_and_call_with_agent_delay, henv, hg, hn0, hst2, hn1,
                    hs2f, reqKinds]⟩⟩
            | ok j =>
              cases j with
              | obj kvs =>
                cases hn2 : net 2 with
                | exn e2 =>
                  exact ⟨by simp [create_room_and_call_with_agent_delay, henv, hg, hn0,
                      hst2, hn1, hs2f, hn2, tokenLeadsTrace],
                    ⟨[], by simp [create_room_and_call_with_agent_delay, henv, hg, hn0,
                      hst2, hn1, hs2f, hn2, reqKinds]⟩⟩
                | ok st3 b3 jb3 =>
                  exact ⟨by simp [create_room_and_call_with_agent_delay, henv, hg, hn0,
                      hst2, hn1, hs2f, hn2, tokenLeadsTrace],
                    ⟨[], by simp [create_room_and_call_with_agent_delay, henv, hg, hn0,
                      hst2, hn1, hs2f, hn2, reqKinds]⟩⟩
              | null =>
                exact ⟨by simp [create_room_and_call_with_agent_delay, henv, hg, hn0, hst2,
                    hn1, hs2f, tokenLeadsTrace],
                  ⟨[ReqKind.updateMetadata],
                    by simp [create_room_and_call_with_agent_delay, henv, hg, hn0, hst2,
                      hn1, hs2f, reqKinds]⟩⟩
              | bool b4 =>
                exact ⟨by simp [create_room_and_call_with_agent_delay, henv, hg, hn0, hst2,
                    hn1, hs2f, tokenLeadsTrace],
                  ⟨[ReqKind.updateMetadata],
                    by simp [create_room_and_call_with_agent_delay, henv, hg, hn0, hst2,
                      hn1, hs2f, reqKinds]⟩⟩
              | num n4 =>
                exact ⟨by simp [create_room_and_call_with_agent_delay, henv, hg, hn0, hst2,
                    hn1, hs2f, tokenLeadsTrace],
                  ⟨[ReqKind.updateMetadata],
                    by simp [create_room_and_call_with_agent_delay, henv, hg, hn0, hst2,
                      hn1, hs2f, reqKinds]⟩⟩
              | str s4 =>
                exact ⟨by simp [create_room_and_call_with_agent_delay, henv, hg, hn0, hst2,
                    hn1, hs2f, tokenLeadsTrace],
                  ⟨[ReqKind.updateMetadata],
                    by simp [create_room_and_call_with_agent_delay, henv, hg, hn0, hst2,
                      hn1, hs2f, reqKinds]⟩⟩
              | arr xs4 =>
                exact ⟨by simp [create_room_and_call_with_agent_delay, henv, hg, hn0, hst2,
                    hn1, hs2f, tokenLeadsTrace],
                  ⟨[ReqKind.updateMetadata],
                    by simp [create_room_and_call_with_agent_delay, henv, hg, hn0, hst2,
                      hn1, hs2f, reqKinds]⟩⟩
  · have h : allPresent env = false := by simpa using henv
    exact ⟨by simp [create_room_and_call_with_agent_delay, h, tokenLeadsTrace],
      ⟨[ReqKind.createRoom, ReqKind.createSIP, ReqKind.updateMetadata],
        by simp [create_room_and_call_with_agent_delay, h, reqKinds]⟩⟩

/-- C4 counterexample: a fully successful run of create_room_and_call (the
function the form handler invokes) attempts exactly two network calls
(create-session, then call-placement), not three. -/
theorem C4_counterexample :
    reqKinds (create_room_and_call "+15551234567" demoEnv 1700000000 successNet).2 =
      [ReqKind.createRoom, ReqKind.createSIP] ∧
    (reqKinds (create_room_and_call "+15551234567" demoEnv 1700000000 successNet).2).length ≠
      3 := by
  refine ⟨rfl, ?_⟩
  intro h
  rw [show reqKinds (create_room_and_call "+15551234567" demoEnv 1700000000 successNet).2 =
    [ReqKind.createRoom, ReqKind.createSIP] from rfl] at h
  simp at h

/-- C4 (amended): in every execution the attempted network calls form a
prefix of [create-session, call-placement] for create_room_and_call and of
[create-session, call-placement, metadata-update] for the delayed variant —
so the session-creation request precedes the call-placement request — and
whenever the trace is nonempty it opens with the token generation, so the
token is generated before any API call. -/
theorem C4_call_order (phone : String) (env : Env) (now : Nat) (net : Nat → HttpResult) :
    (tokenLeadsTrace (create_room_and_call phone env now net).2 = true ∧
      ∃ r, reqKinds (create_room_and_call phone env now net).2 ++ r =
        [ReqKind.createRoom, ReqKind.createSIP]) ∧
    (tokenLeadsTrace (create_room_and_call_with_agent_delay phone env now net).2 = true ∧
      ∃ r, reqKinds (create_room_and_call_with_agent_delay phone env now net).2 ++ r =
        [ReqKind.createRoom, ReqKind.createSIP, ReqKind.updateMetadata]) :=
  ⟨create_trace_shape phone env now net, delay_trace_shape phone env now net⟩

/-- C6: for every input and every network outcome, create_room_and_call
returns one of the six descriptive message shapes — missing configuration,
token failure, the two per-request HTTP failures, success, or a caught
exception — and, being a total function into strings, propagates no
exception. -/
theorem C6_always_descriptive (phone : String) (env : Env) (now : Nat)
    (net : Nat → HttpResult) :
    descriptiveMessage (create_room_and_call phone env now net).1 := by
  by_cases henv : allPresent env = true
  · have hg := gen_token_ok_of_allPresent env now henv
    cases hn0 : net 0 with
    | exn e =>
      exact Or.inr (Or.inr (Or.inr (Or.inr (Or.inr ⟨e,
        by simp [create_room_and_call, henv, hg, hn0]⟩))))
    | ok st b jb =>
      by_cases hst : (st != 200) = true
      · refine Or.inr (Or.inr (Or.inl ⟨toString st ++ (" - " ++ b), ?_⟩))
        simp [create_room_and_call, henv, hg, hn0, hst, String.append_assoc]
      · have hst2 : (st != 200) = false := by simpa using hst
        cases hn1 : net 1 with
        | exn e =>
          exact Or.inr (Or.inr (Or.inr (Or.inr (Or.inr ⟨e,
            by simp [create_room_and_call, henv, hg, hn0, hst2, hn1]⟩))))
        | ok st2 b2 jb2 =>
          by_cases hs2 : (st2 == 200) = true
          · cases jb2 with
            | error e =>
              exact Or.inr (Or.inr (Or.inr (Or.inr (Or.inr ⟨e,
                by simp [create_room_and_call, henv, hg, hn0, hst2, hn1, hs2]⟩))))
            | ok j =>
              cases j with
              | obj kvs =>
                refine Or.inr (Or.inr (Or.inr (Or.inr (Or.inl
                  ⟨("surgical-call-" ++ toString now) ++ ("\nParticipant ID: " ++
                    (pidDisplay kvs ++ "\n🤖 Agent should join the call shortly")), ?_⟩))))
                simp [create_room_and_call, henv, hg, hn0, hst2, hn1, hs2,
                  String.append_assoc]
              | null =>
                exact Or.inr (Or.inr (Or.inr (Or.inr (Or.inr ⟨attributeErrorMsg .null,
                  by simp [create_room_and_call, henv, hg, hn0, hst2, hn1, hs2]⟩))))
              | bool b4 =>
                exact Or.inr (Or.inr (Or.inr (Or.inr (Or.inr ⟨attributeErrorMsg (.bool b4),
                  by simp [create_room_and_call, henv, hg, hn0, hst2, hn1, hs2]⟩))))
              | num n4 =>
                exact Or.inr (Or.inr (Or.inr (Or.inr (Or.inr ⟨attributeErrorMsg (.num n4),
                  by simp [create_room_and_call, henv, hg, hn0, hst2, hn1, hs2]⟩))))
              | str s4 =>
                exact Or.inr (Or.inr (Or.inr (Or.inr (Or.inr ⟨attributeErrorMsg (.str s4),
                  by simp [create_room_and_call, henv, hg, hn0, hst2, hn1, hs2]⟩))))
              | arr xs4 =>
                exact Or.inr (Or.inr (Or.inr (Or.inr (Or.inr ⟨attributeErrorMsg (.arr xs4),
                  by simp [create_room_and_call, henv, hg, hn0, hst2, hn1, hs2]⟩))))
          · have hs2f : (st2 == 200) = false := by simpa using hs2
            refine Or.inr (Or.inr (Or.inr (Or.inl ⟨toString st2 ++ (" - " ++ b2), ?_⟩)))
            simp [create_room_and_call, henv, hg, hn0, hst2, hn1, hs2f, String.append_assoc]
  · have h : allPresent env = false := by simpa using henv
    exact Or.inl ⟨joinComma (missingVars env), by simp [create_room_and_call, h]⟩

/-- C8 counterexample: with the room and SIP requests succeeding and the
metadata-update request raising a connection error, the delayed variant
returns the caught-exception string, not the success string the claim says
is unchanged by an update failure. -/
theorem C8_counterexample :
    (create_room_and_call_with_agent_delay "+15551234567" demoEnv 1700000000 updateExnNet).1 =
      "Exception occurred: Connection reset by peer" ∧
    (create_room_and_call_with_agent_delay "+15551234567" demoEnv 1700000000 updateExnNet).1 ≠
      "✅ Call initiated to +15551234567!\nRoom: surgical-call-1700000000\n🤖 Attempting to add agent..." := by
  refine ⟨rfl, ?_⟩
  intro h
  rw [show (create_room_and_call_with_agent_delay "+15551234567" demoEnv 1700000000
      updateExnNet).1 = "Exception occurred: Connection reset by peer" from rfl] at h
  exact absurd h (by decide)

/-- C8 (amended): once the SIP call has been placed, the metadata-update
outcome triggers no further request; a response with any status (success or
failure alike) leaves the success string unchanged, while an exception
raised by the update request itself is reported as the caught-exception
string — in both cases exactly the three requests were attempted and no
compensating request is issued. -/
theorem C8_update_failure_no_compensation (phone : String) (env : Env) (now : Nat)
    (net : Nat → HttpResult) (b0 b1 : String) (j0 : Except String Json)
    (kvs : List (String × Json))
    (henv : allPresent env = true)
    (h0 : net 0 = HttpResult.ok 200 b0 j0)
    (h1 : net 1 = HttpResult.ok 200 b1 (Except.ok (Json.obj kvs))) :
    (∀ st2 b2 j2, net 2 = HttpResult.ok st2 b2 j2 →
      (create_room_and_call_with_agent_delay phone env now net).1 =
        "✅ Call initiated to " ++ phone ++ "!\nRoom: " ++
          ("surgical-call-" ++ toString now) ++ "\n🤖 Attempting to add agent..." ∧
      reqKinds (create_room_and_call_with_agent_delay phone env now net).2 =
        [ReqKind.createRoom, ReqKind.createSIP, ReqKind.updateMetadata]) ∧
    (∀ e, net 2 = HttpResult.exn e →
      (create_room_and_call_with_agent_delay phone env now net).1 =
        "Exception occurred: " ++ e ∧
      reqKinds (create_room_and_call_with_agent_delay phone env now net).2 =
        [ReqKind.createRoom, ReqKind.createSIP, ReqKind.updateMetadata]) := by
  have hg := gen_token_ok_of_allPresent env now henv
  constructor
  · intro st2 b2 j2 h2
    constructor
    · simp [create_room_and_call_with_agent_delay, henv, hg, h0, h1, h2,
        String.append_assoc]
    · simp [create_room_and_call_with_agent_delay, henv, hg, h0, h1, h2, reqKinds]
  · intro e h2
    constructor
    · simp [create_room_and_call_with_agent_delay, henv, hg, h0, h1, h2]
    · simp [create_room_and_call_with_agent_delay, henv, hg, h0, h1, h2, reqKinds]

/-- Witness for C8: both calls succeed and the update returns 500; the
success string is returned and exactly three requests were attempted. -/
theorem C8_witness :
    (create_room_and_call_with_agent_delay "+15551234567" demoEnv 1700000000 updateFailNet).1 =
      "✅ Call initiated to " ++ "+15551234567" ++ "!\nRoom: " ++
        ("surgical-call-" ++ toString 1700000000) ++ "\n🤖 Attempting to add agent..." ∧
    reqKinds (create_room_and_call_with_agent_delay "+15551234567" demoEnv 1700000000
        updateFailNet).2 =
      [ReqKind.createRoom, ReqKind.createSIP, ReqKind.updateMetadata] :=
  (C8_update_failure_no_compensation "+15551234567" demoEnv 1700000000 updateFailNet
      "" "" (Except.ok (Json.obj [("participant_id", Json.str "PA_x")]))
      [("participant_id", Json.str "PA_x")] rfl rfl rfl).1
    500 "update failed" (Except.error "no json body") rfl

end SurgCare
